import Mathlib

/-!
Verification development for the `service.skin.widgets` Kodi addon
(`default.py`).  The addon is a background service that polls the Kodi
library over JSON-RPC and exposes the results as flattened string
window properties for a skin to read; invoked with an id argument it
instead opens the player on that item.

The definitions below are a shallow embedding of `default.py`:
pure functions mirror the script's functions, the home window is a
partial map from property names to strings, RPC responses are passed
in as data, and the Python dynamic values that matter (the
`getSetting` strings compared against ints, `str * int` repetition)
are modelled by an explicit `PyVal` type.
-/

/-! ## Python value model

`xbmcaddon.Addon().getSetting` returns the raw setting value as a
`str`.  `default.py` multiplies one such string by an int literal
(line 202) and compares others against int literals (lines 1016 and
1098), so the embedding keeps the int/str distinction explicit:
`pyEq` is Python `==` (an int never equals a str), `pyMulInt` is
Python `*` by an int (repetition on a str). -/

inductive PyVal where
  | int : Int → PyVal
  | str : String → PyVal
deriving DecidableEq

def pyEq : PyVal → PyVal → Bool
  | .int a, .int b => a == b
  | .str a, .str b => a == b
  | _, _ => false

def pyMulInt : PyVal → Int → PyVal
  | .int a, n => .int (a * n)
  | .str s, n => .str (String.join (List.replicate n.toNat s))

/-- Python `str(...)` of the values that occur here. -/
def pyStr : PyVal → String
  | .int n => toString n
  | .str s => s

/-- Python `int(...)` truncation of a float, modelled on rationals
(truncation toward zero). -/
def pyTrunc (q : ℚ) : Int := if 0 ≤ q then ⌊q⌋ else -⌊-q⌋

/-- Python 3 `round(x)` (round half to even), modelled on rationals. -/
def pyRoundHalfEven (q : ℚ) : Int :=
  if q - ⌊q⌋ = (1 : ℚ) / 2 then (if ⌊q⌋ % 2 = 0 then ⌊q⌋ else ⌊q⌋ + 1)
  else ⌊q + 1 / 2⌋

/-- `str(round(x, 1))`: one digit after the decimal point, as Python
prints a one-decimal float. -/
def fmtRound1 (q : ℚ) : String :=
  let n := pyRoundHalfEven (q * 10)
  (if n < 0 then "-" else "") ++ toString (n.natAbs / 10) ++ "." ++ toString (n.natAbs % 10)

/-- Python `f"‹float(n)›:.2f"` for an int `n` (the script formats the
ints `season` and `episode` this way). -/
def fmtF2 (n : Int) : String := toString n ++ ".00"

/-- Python `"‹:02d›".format n`. -/
def pad2 (n : Int) : String :=
  if 0 ≤ n ∧ n < 10 then "0" ++ toString n else toString n

/-- Python `pat in s` on strings (substring test). -/
def strContains (s pat : String) : Bool :=
  s.data.tails.any (fun t => pat.data.isPrefixOf t)

/-- Python `s.endswith(pat)`. -/
def strEndsWith (s pat : String) : Bool :=
  pat.data.isSuffixOf s.data

/-! ## The home window

`xbmcgui.Window(10000)` holds string properties; `setProperty` writes
one, `clearProperty` removes one. -/

abbrev Window := String → Option String

def setProp (w : Window) (k v : String) : Window :=
  fun q => if q = k then some v else w q

def clearProp (w : Window) (k : String) : Window :=
  fun q => if q = k then none else w q

/-- Run a list of `setProperty` calls in order. -/
def applyProps (props : List (String × String)) (w : Window) : Window :=
  props.foldl (fun w p => setProp w p.1 p.2) w

/-! ## Path helpers (`media_path`, default.py lines 1111-1139) -/

/-- `os.path.split(p)[0]` with POSIX rules: everything before the last
separator, trailing separators stripped unless the head is all
separators. -/
def posixDirname (p : String) : String :=
  let cs := p.data
  let tail := cs.reverse.takeWhile (fun c => c != '/')
  let head := cs.take (cs.length - tail.length)
  let head :=
    if head.any (fun c => c != '/') then (head.reverse.dropWhile (fun c => c == '/')).reverse
    else head
  String.mk head

/-- Python `s.rsplit(sep, 1)[1]`: the part after the last occurrence
of `sep`, or `none` (IndexError) when `sep` does not occur. -/
def rsplitLast (s sep : String) : Option String :=
  let parts := s.splitOn sep
  if 2 ≤ parts.length then parts.getLast? else none

def hexDigit? (c : Char) : Option Nat :=
  if '0' ≤ c ∧ c ≤ '9' then some (c.toNat - 48)
  else if 'a' ≤ c ∧ c ≤ 'f' then some (c.toNat - 87)
  else if 'A' ≤ c ∧ c ≤ 'F' then some (c.toNat - 55)
  else none

/-- Percent-decoding, the work `urllib.request.url2pathname` does on
POSIX (multi-byte UTF-8 escape sequences are decoded per byte). -/
def unquoteChars : List Char → List Char
  | [] => []
  | '%' :: a :: b :: rest =>
    match hexDigit? a, hexDigit? b with
    | some ha, some hb => Char.ofNat (16 * ha + hb) :: unquoteChars rest
    | _, _ => '%' :: unquoteChars (a :: b :: rest)
  | c :: rest => c :: unquoteChars rest

def url2pathname (s : String) : String := String.mk (unquoteChars s.data)

/-- `media_path` (default.py lines 1111-1139): dirname of the item
path, with stacked (` , `), `rar://` and `multipath://` forms fixed
up.  The `try` block's `rsplit(' , ', 1)[1]` raises IndexError when
there is no ` , ` separator, falling back to the plain dirname. -/
def media_path (path : String) : String :=
  let head := posixDirname path
  let path1 :=
    match rsplitLast head " , " with
    | some after => after.replace ",," ","
    | none => head
  if path1.startsWith "rar://" then
    posixDirname (url2pathname (path1.replace "rar://" ""))
  else if path1.startsWith "multipath://" then
    (((path1.replace "multipath://" "").splitOn "%2f/").map url2pathname).headD ""
  else path1

/-! ## Stream details (`media_streamdetails`, default.py lines 1142-1212)

The JSON-RPC `streamdetails` field carries a list of video streams and
a list of audio streams; the fields the script reads are modelled as a
record per stream.  (The script also asks the first video stream's
dict for the misspelled key `hdrtpe`; that key is never present in a
Kodi stream dict, whose keys are fixed by the API schema, so the
`else` branch assigning `SDR` is always the one taken.) -/

structure VideoStream where
  width : Int
  height : Int
  aspect : ℚ
  codec : String
  hdrtype : String
deriving DecidableEq

structure AudioStream where
  codec : String
  channels : Int
deriving DecidableEq

structure StreamDetails where
  video : List VideoStream
  audio : List AudioStream
deriving DecidableEq

/-- The `videoaspect` if/elif chain (lines 1189-1200). -/
def aspectBucket (aspect : ℚ) : String :=
  if aspect < 1.4859 then "1.33"
  else if aspect < 1.7190 then "1.66"
  else if aspect < 1.8147 then "1.78"
  else if aspect < 2.0174 then "1.85"
  else if aspect < 2.2738 then "2.20"
  else "2.35"

/-- The `videoresolution` if/elif chain (lines 1156-1180).  In the
source, `('hddvd' or 'hd-dvd')` evaluates to `'hddvd'`,
`'.vob' or '.ifo'` to `'.vob'` and `('bluray' or ...)` to `'bluray'`
(Python `or` on non-empty strings returns its first operand). -/
def media_videoresolution (filename : String) (video : List VideoStream) : String :=
  if strContains filename "3d" then "3d"
  else
    match video with
    | v0 :: _ =>
      if v0.width ≤ 720 ∧ v0.height ≤ 480 then "480"
      else if v0.width ≤ 768 ∧ v0.height ≤ 576 then "576"
      else if v0.width ≤ 960 ∧ v0.height ≤ 544 then "540"
      else if v0.width ≤ 1280 ∧ v0.height ≤ 720 then "720"
      else if v0.width ≥ 1281 ∨ v0.height ≥ 721 then "1080"
      else ""
    | [] =>
      if (strContains filename "dvd" ∧ ¬strContains filename "hddvd")
          ∨ strEndsWith filename ".vob"
      then "576"
      else if strContains filename "bluray" then "1080"
      else "1080"

/-- The audio half of the `info` dict (lines 1205-1210):
`audiochannels` keeps the int from the stream, or the empty string
when there is no audio stream. -/
def mediaAudioPart (audio : List AudioStream) : List (String × PyVal) :=
  match audio with
  | a0 :: _ => [("audiocodec", .str a0.codec), ("audiochannels", .int a0.channels)]
  | [] => [("audiocodec", .str ""), ("audiochannels", .str "")]

/-- `media_streamdetails` (lines 1142-1212), returning the `info`
dict as an association list in Python insertion order. -/
def media_streamdetails (filename : String) (streamdetails : StreamDetails) : List (String × PyVal) :=
  let vres := media_videoresolution filename streamdetails.video
  match streamdetails.video with
  | v0 :: _ =>
    [("videoresolution", .str vres),
     ("hdrtype", .str "SDR"),
     ("videocodec", .str v0.codec),
     ("videoaspect", .str (aspectBucket v0.aspect))]
      ++ mediaAudioPart streamdetails.audio
  | [] =>
    [("videoresolution", .str vres),
     ("videocodec", .str ""),
     ("videoaspect", .str ""),
     ("hdrtype", .str "")]
      ++ mediaAudioPart streamdetails.audio

/-- `info[k]` on the dict built by `media_streamdetails` (every key
the script reads is present). -/
def sdGet (info : List (String × PyVal)) (k : String) : PyVal :=
  (info.lookup k).getD (.str "")

/-! ## Items returned by the library queries

One record type per entity, holding exactly the properties the
script's JSON-RPC queries request and its loops read. -/

structure ResumePoint where
  position : ℚ
  total : ℚ
deriving DecidableEq

structure Movie where
  movieid : Int
  title : String
  originaltitle : String
  playcount : Int
  year : Int
  genre : List String
  studio : List String
  country : List String
  tagline : String
  plot : String
  runtime : Int
  file : String
  plotoutline : String
  lastplayed : String
  trailer : String
  rating : ℚ
  userrating : Int
  resume : ResumePoint
  art : List (String × String)
  streamdetails : StreamDetails
  mpaa : String
  director : List String
deriving DecidableEq

structure Episode where
  episodeid : Int
  tvshowid : Int
  title : String
  showtitle : String
  plot : String
  file : String
  firstaired : String
  playcount : Int
  season : Int
  episode : Int
  runtime : Int
  rating : ℚ
  userrating : Int
  resume : ResumePoint
  art : List (String × String)
  streamdetails : StreamDetails
deriving DecidableEq

structure MusicVideo where
  musicvideoid : Int
  title : String
  artist : List String
  genre : List String
  playcount : Int
  year : Int
  runtime : Int
  userrating : Int
  plot : String
  file : String
  art : List (String × String)
  streamdetails : StreamDetails
  resume : ResumePoint
deriving DecidableEq

structure Album where
  albumid : Int
  title : String
  description : String
  albumlabel : String
  thumbnail : String
  fanart : String
  theme : List String
  mood : List String
  style : List String
  type : List String
  artist : List String
  genre : List String
  year : Int
  rating : Int
  userrating : Int
  playcount : Int
  art : List (String × String)
deriving DecidableEq

structure Artist where
  artistid : Int
  label : String
  description : String
  born : String
  died : String
  formed : String
  disbanded : String
  fanart : String
  thumbnail : String
  genre : List String
  mood : List String
  style : List String
  yearsactive : List String
  instrument : List String
  art : List (String × String)
deriving DecidableEq

structure Song where
  songid : Int
  title : String
  album : String
  comment : String
  file : String
  thumbnail : String
  fanart : String
  artist : List String
  playcount : Int
  year : Int
  userrating : Int
  rating : ℚ
  art : List (String × String)
deriving DecidableEq

/-- The module-level context the row builders read: `__addonid__`,
`self.PLOT_ENABLE` and `__localize__(32014)` (the text shown instead
of the plot of an unwatched item). -/
structure Ctx where
  addonid : String
  PLOT_ENABLE : Bool
  localized_32014 : String
deriving DecidableEq

/-- `art.get(k, '')`. -/
def artGet (art : List (String × String)) (k : String) : String :=
  (art.lookup k).getD ""

/-- Python `(a and b)` of the two resume floats, as used in
`(item['resume']['position'] and item['resume']['total']) > 0`. -/
def resumePair (r : ResumePoint) : ℚ :=
  if r.position = 0 then r.position else r.total

/-- `int((float(position) / float(total)) * 100)` as a string. -/
def percentPlayed (r : ResumePoint) : String :=
  toString (pyTrunc (r.position / r.total * 100))

/-! ## The per-item property writes

Each fetch loop writes properties keyed `‹request›.‹count›.‹Field›`;
`X_row_entries` lists the `(Field, value)` pairs one item produces, in
source order, and `X_row_props` prefixes them with the request and
index. -/

/-- The `(Field, value)` pairs one movie row writes
(default.py lines 338-408), ending with the `for k, v in art.items()`
loop that re-writes `Art(k)` for every art key. -/
def movie_row_entries (ctx : Ctx) (item : Movie) : List (String × String) :=
  let pair := resumePair item.resume
  let resume := if pair > 0 then "true" else "false"
  let played := if pair > 0 then percentPlayed item.resume ++ "%" else "0%"
  let played_asint := if pair > 0 then percentPlayed item.resume else "0"
  let watched := if item.playcount ≥ 1 then "true" else "false"
  let plot := if ¬ctx.PLOT_ENABLE ∧ watched = "false" then ctx.localized_32014 else item.plot
  let art := item.art
  let path := media_path item.file
  let play := "RunScript(" ++ ctx.addonid ++ ",movieid=" ++ toString item.movieid ++ ")"
  let streaminfo := media_streamdetails item.file.toLower item.streamdetails
  let studio := match item.studio with | s :: _ => s | [] => ""
  let country := match item.country with | c :: _ => c | [] => ""
  [("DBID", toString item.movieid),
   ("Title", item.title),
   ("OriginalTitle", item.originaltitle),
   ("Year", toString item.year),
   ("Genre", String.intercalate " / " item.genre),
   ("Studio", studio),
   ("Country", country),
   ("Plot", plot),
   ("PlotOutline", item.plotoutline),
   ("Tagline", item.tagline),
   ("Runtime", toString (pyTrunc ((item.runtime : ℚ) / 60 + 1 / 2))),
   ("Rating", fmtRound1 item.rating),
   ("Userrating", toString item.userrating),
   ("mpaa", item.mpaa),
   ("Director", String.intercalate " / " item.director),
   ("Trailer", item.trailer),
   ("Art(poster)", artGet art "poster"),
   ("Art(fanart)", artGet art "fanart"),
   ("Art(clearlogo)", artGet art "clearlogo"),
   ("Art(clearart)", artGet art "clearart"),
   ("Art(landscape)", artGet art "landscape"),
   ("Art(banner)", artGet art "banner"),
   ("Art(discart)", artGet art "discart"),
   ("Art(icon)", artGet art "icon"),
   ("Resume", resume),
   ("PercentPlayed", played),
   ("PercentPlayedAsInt", played_asint),
   ("Watched", watched),
   ("File", item.file),
   ("Path", path),
   ("Play", play),
   ("VideoCodec", pyStr (sdGet streaminfo "videocodec")),
   ("VideoResolution", pyStr (sdGet streaminfo "videoresolution")),
   ("VideoAspect", pyStr (sdGet streaminfo "videoaspect")),
   ("HDRType", pyStr (sdGet streaminfo "hdrtype")),
   ("AudioCodec", pyStr (sdGet streaminfo "audiocodec")),
   ("AudioChannels", pyStr (sdGet streaminfo "audiochannels"))]
  ++ art.map (fun kv => ("Art(" ++ kv.1 ++ ")", kv.2))

/-- The `(Field, value)` pairs one episode row of `_fetch_tvshows`
writes (lines 603-665).  The season-folder path computed at lines
603-606 is overwritten by the unconditional `path = media_path(...)`
at line 629, mirrored here by let-shadowing. -/
def episode_row_entries (ctx : Ctx) (season_folders : String) (item : Episode) : List (String × String) :=
  let path := if season_folders == "true" then posixDirname (media_path item.file)
              else media_path item.file
  let episode := fmtF2 item.episode
  let season := fmtF2 item.season
  let episodeno := "s" ++ season ++ "e" ++ episode
  let rating := fmtRound1 item.rating
  let pair := resumePair item.resume
  let resume := if pair > 0 then "true" else "false"
  let played := if pair > 0 then percentPlayed item.resume ++ "%" else "0%"
  let played_asint := if pair > 0 then percentPlayed item.resume else "0"
  let watched := if item.playcount ≥ 1 then "true" else "false"
  let plot := if ¬ctx.PLOT_ENABLE ∧ watched = "false" then ctx.localized_32014 else item.plot
  let art := item.art
  let path := media_path item.file
  let play := "RunScript(" ++ ctx.addonid ++ ",episodeid=" ++ toString item.episodeid ++ ")"
  let streaminfo := media_streamdetails item.file.toLower item.streamdetails
  [("DBID", toString item.episodeid),
   ("Title", item.title),
   ("Episode", episode),
   ("EpisodeNo", episodeno),
   ("Season", season),
   ("Plot", plot),
   ("TVshowTitle", item.showtitle),
   ("Rating", rating),
   ("Runtime", toString (pyTrunc ((item.runtime : ℚ) / 60 + 1 / 2))),
   ("Premiered", item.firstaired),
   ("Art(thumb)", artGet art "thumb"),
   ("Art(icon)", artGet art "icon"),
   ("Art(tvshow.fanart)", artGet art "tvshow.fanart"),
   ("Art(tvshow.poster)", artGet art "tvshow.poster"),
   ("Art(tvshow.banner)", artGet art "tvshow.banner"),
   ("Art(tvshow.clearlogo)", artGet art "tvshow.clearlogo"),
   ("Art(tvshow.clearart)", artGet art "tvshow.clearart"),
   ("Art(tvshow.landscape)", artGet art "tvshow.landscape"),
   ("Art(tvshow.characterart)", artGet art "tvshow.characterart"),
   ("Resume", resume),
   ("PercentPlayed", played),
   ("PercentPlayedAsInt", played_asint),
   ("Watched", watched),
   ("File", item.file),
   ("Path", path),
   ("Play", play),
   ("VideoCodec", pyStr (sdGet streaminfo "videocodec")),
   ("VideoResolution", pyStr (sdGet streaminfo "videoresolution")),
   ("VideoAspect", pyStr (sdGet streaminfo "videoaspect")),
   ("AudioCodec", pyStr (sdGet streaminfo "audiocodec")),
   ("AudioChannels", pyStr (sdGet streaminfo "audiochannels"))]

/-- The `(Field, value)` pairs one music-video row writes
(lines 737-769). -/
def musicvideo_row_entries (ctx : Ctx) (item : MusicVideo) : List (String × String) :=
  let pair := resumePair item.resume
  let resume := if pair > 0 then "true" else "false"
  let played := if pair > 0 then percentPlayed item.resume ++ "%" else "0%"
  let played_asint := if pair > 0 then percentPlayed item.resume else "0"
  let watched := if item.playcount ≥ 1 then "true" else "false"
  let art := item.art
  let play := "RunScript(" ++ ctx.addonid ++ ",musicvideoid=" ++ toString item.musicvideoid ++ ")"
  let path := media_path item.file
  let streaminfo := media_streamdetails item.file.toLower item.streamdetails
  let runtimesecs := toString (Int.fdiv item.runtime 60) ++ ":" ++ pad2 (Int.emod item.runtime 60)
  [("DBID", toString item.musicvideoid),
   ("Title", item.title),
   ("Artist", String.intercalate " / " item.artist),
   ("Year", toString item.year),
   ("Plot", item.plot),
   ("Genre", String.intercalate " / " item.genre),
   ("Userrating", toString item.userrating),
   ("Runtime", toString (pyTrunc ((item.runtime : ℚ) / 60 + 1 / 2))),
   ("Runtimesecs", runtimesecs),
   ("Thumb", artGet art "thumb"),
   ("Fanart", artGet art "fanart"),
   ("Art(thumb)", artGet art "thumb"),
   ("Art(fanart)", artGet art "fanart"),
   ("Art(clearlogo)", artGet art "clearlogo"),
   ("Art(clearart)", artGet art "clearart"),
   ("Art(landscape)", artGet art "landscape"),
   ("Art(banner)", artGet art "banner"),
   ("Art(cover)", artGet art "cover"),
   ("Art(icon)", artGet art "icon"),
   ("File", item.file),
   ("Path", path),
   ("Resume", resume),
   ("PercentPlayed", played),
   ("PercentPlayedAsInt", played_asint),
   ("Watched", watched),
   ("Play", play),
   ("VideoCodec", pyStr (sdGet streaminfo "videocodec")),
   ("VideoResolution", pyStr (sdGet streaminfo "videoresolution")),
   ("VideoAspect", pyStr (sdGet streaminfo "videoaspect")),
   ("AudioCodec", pyStr (sdGet streaminfo "audiocodec")),
   ("AudioChannels", pyStr (sdGet streaminfo "audiochannels"))]

/-- The `(Field, value)` pairs one album row writes (lines 816-839):
a rating whose `str` is exactly `"48"` becomes the empty string. -/
def album_row_entries (ctx : Ctx) (item : Album) : List (String × String) :=
  let rating := toString item.rating
  let rating := if rating == "48" then "" else rating
  let play := "RunScript(" ++ ctx.addonid ++ ",albumid=" ++ toString item.albumid ++ ")"
  [("Title", item.title),
   ("Label", item.title),
   ("Artist", String.intercalate " / " item.artist),
   ("Genre", String.intercalate " / " item.genre),
   ("Theme", String.intercalate " / " item.theme),
   ("Mood", String.intercalate " / " item.mood),
   ("Style", String.intercalate " / " item.style),
   ("Type", String.intercalate " / " item.type),
   ("Year", toString item.year),
   ("RecordLabel", item.albumlabel),
   ("Description", item.description),
   ("Rating", rating),
   ("Userrating", toString item.userrating),
   ("Thumb", item.thumbnail),
   ("Fanart", item.fanart),
   ("Art(thumb)", item.thumbnail),
   ("Art(fanart)", item.fanart),
   ("Play", play)]

/-- The `(Field, value)` pairs one artist row writes (lines 872-889). -/
def artist_row_entries (item : Artist) : List (String × String) :=
  let path := "musicdb://2/" ++ toString item.artistid ++ "/"
  [("Title", item.label),
   ("Genre", String.intercalate " / " item.genre),
   ("Thumb", item.thumbnail),
   ("Fanart", item.fanart),
   ("Art(thumb)", item.thumbnail),
   ("Art(fanart)", item.fanart),
   ("Description", item.description),
   ("Born", item.born),
   ("Died", item.died),
   ("Formed", item.formed),
   ("Disbanded", item.disbanded),
   ("YearsActive", String.intercalate " / " item.yearsactive),
   ("Style", String.intercalate " / " item.style),
   ("Mood", String.intercalate " / " item.mood),
   ("Instrument", String.intercalate " / " item.instrument),
   ("LibraryPath", path)]

/-- The `(Field, value)` pairs one song row writes (lines 926-943):
the song rating is `str(int(rating) - 48)`. -/
def song_row_entries (ctx : Ctx) (item : Song) : List (String × String) :=
  let play := "RunScript(" ++ ctx.addonid ++ ",songid=" ++ toString item.songid ++ ")"
  let path := media_path item.file
  [("Title", item.title),
   ("Artist", String.intercalate " / " item.artist),
   ("Year", toString item.year),
   ("Rating", toString (pyTrunc item.rating - 48)),
   ("Userrating", toString item.userrating),
   ("Album", item.album),
   ("Thumb", item.thumbnail),
   ("Fanart", item.fanart),
   ("Art(thumb)", item.thumbnail),
   ("Art(fanart)", item.fanart),
   ("File", item.file),
   ("Path", path),
   ("Play", play),
   ("Description", item.comment)]

/-! ## The fetch operations as window transformers

`simplejson.loads(xbmc.executeJSONRPC(...))` yields a dict; every
fetch guards its writes with
`if 'result' in json_query and '‹entities›' in json_query['result']`.
An `RpcResp` models exactly the two levels that guard inspects:
`result = none` is a response without a `result` key, and
`entities = none` a `result` object without the per-entity list key
(`movies`, `episodes`, `musicvideos`, `albums`, `artists`, `songs`). -/

structure RpcResult (α : Type) where
  entities : Option (List α)
deriving DecidableEq

structure RpcResp (α : Type) where
  result : Option (RpcResult α)
deriving DecidableEq

/-- The guard `'result' in json_query and '‹entities›' in json_query['result']`. -/
def hasEntities {α : Type} (resp : RpcResp α) : Bool :=
  match resp.result with
  | some r => r.entities.isSome
  | none => false

/-- `self.LIMIT` (set to `20` in `_init_vars`). -/
def LIMIT : Nat := 20

/-- `_clear_properties` (lines 1055-1064): `for count in
range(int(self.LIMIT)): count += 1;
clearProperty(f"‹request›.‹count›.Title")`. -/
def clear_properties (request : String) (w : Window) : Window :=
  (List.range LIMIT).foldl
    (fun w count => clearProp w (request ++ "." ++ toString (count + 1) ++ ".Title")) w

/-- A fetch loop: `count = 0` before the loop, `count += 1` at the top
of each iteration, then the row's property writes at index `count`. -/
def loopRows {α : Type} (row : Nat → α → List (String × String)) :
    List α → Nat → List (String × String)
  | [], _ => []
  | item :: rest, count => row (count + 1) item ++ loopRows row rest (count + 1)

/-- Rows listed against an explicit enumeration of their indices
(used to state what `loopRows` produces). -/
def concatRows {α : Type} (row : Nat → α → List (String × String)) :
    List (Nat × α) → List (String × String)
  | [] => []
  | p :: rest => row p.1 p.2 ++ concatRows row rest

/-- Key prefixing shared by every fetch: `f"‹request›.‹count›.‹Field›"`. -/
def prefixRow (request : String) (count : Nat) (entries : List (String × String)) :
    List (String × String) :=
  entries.map (fun e => (request ++ "." ++ toString count ++ "." ++ e.1, e.2))

def movie_row_props (ctx : Ctx) (request : String) (count : Nat) (item : Movie) :
    List (String × String) :=
  prefixRow request count (movie_row_entries ctx item)

def episode_row_props (ctx : Ctx) (season_folders : String) (request : String) (count : Nat)
    (item : Episode) : List (String × String) :=
  prefixRow request count (episode_row_entries ctx season_folders item)

def musicvideo_row_props (ctx : Ctx) (request : String) (count : Nat) (item : MusicVideo) :
    List (String × String) :=
  prefixRow request count (musicvideo_row_entries ctx item)

def album_row_props (ctx : Ctx) (request : String) (count : Nat) (item : Album) :
    List (String × String) :=
  prefixRow request count (album_row_entries ctx item)

def artist_row_props (request : String) (count : Nat) (item : Artist) :
    List (String × String) :=
  prefixRow request count (artist_row_entries item)

def song_row_props (ctx : Ctx) (request : String) (count : Nat) (item : Song) :
    List (String × String) :=
  prefixRow request count (song_row_entries ctx item)

/-- `_fetch_movies` (lines 272-411) as a window transformer: nothing
happens when abort was requested or when the parsed response lacks
`result` or `result.movies`; otherwise the request's Title properties
are cleared and every row is flattened in order. -/
def fetch_movies (abort : Bool) (ctx : Ctx) (request : String) (resp : RpcResp Movie)
    (w : Window) : Window :=
  if abort then w
  else
    match resp.result with
    | some r =>
      match r.entities with
      | some items =>
        applyProps (loopRows (fun c it => movie_row_props ctx request c it) items 0)
          (clear_properties request w)
      | none => w
    | none => w

/-- `_fetch_tvshows` (lines 548-667), the episode fetch used for
`RecentEpisode` and `RandomEpisode`. -/
def fetch_tvshows (abort : Bool) (ctx : Ctx) (season_folders : String) (request : String)
    (resp : RpcResp Episode) (w : Window) : Window :=
  if abort then w
  else
    match resp.result with
    | some r =>
      match r.entities with
      | some items =>
        applyProps (loopRows (fun c it => episode_row_props ctx season_folders request c it)
          items 0) (clear_properties request w)
      | none => w
    | none => w

/-- `_fetch_musicvideo` (lines 682-770). -/
def fetch_musicvideo (abort : Bool) (ctx : Ctx) (request : String) (resp : RpcResp MusicVideo)
    (w : Window) : Window :=
  if abort then w
  else
    match resp.result with
    | some r =>
      match r.entities with
      | some items =>
        applyProps (loopRows (fun c it => musicvideo_row_props ctx request c it) items 0)
          (clear_properties request w)
      | none => w
    | none => w

/-- `_fetch_albums` (lines 772-841). -/
def fetch_albums (abort : Bool) (ctx : Ctx) (request : String) (resp : RpcResp Album)
    (w : Window) : Window :=
  if abort then w
  else
    match resp.result with
    | some r =>
      match r.entities with
      | some items =>
        applyProps (loopRows (fun c it => album_row_props ctx request c it) items 0)
          (clear_properties request w)
      | none => w
    | none => w

/-- `_fetch_artist` (lines 843-890). -/
def fetch_artist (abort : Bool) (request : String) (resp : RpcResp Artist)
    (w : Window) : Window :=
  if abort then w
  else
    match resp.result with
    | some r =>
      match r.entities with
      | some items =>
        applyProps (loopRows (fun c it => artist_row_props request c it) items 0)
          (clear_properties request w)
      | none => w
    | none => w

/-- `_fetch_song` (lines 892-945). -/
def fetch_song (abort : Bool) (ctx : Ctx) (request : String) (resp : RpcResp Song)
    (w : Window) : Window :=
  if abort then w
  else
    match resp.result with
    | some r =>
      match r.entities with
      | some items =>
        applyProps (loopRows (fun c it => song_row_props ctx request c it) items 0)
          (clear_properties request w)
      | none => w
    | none => w

/-! ## Argument parsing and the launcher (`_parse_argv`, `Main.__init__`) -/

/-- The globals `_parse_argv` (lines 204-223) sets from `sys.argv`. -/
structure Args where
  MOVIEID : String
  EPISODEID : String
  MUSICVIDEOID : String
  ALBUMID : String
  SONGID : String
  RESUME : String
  SHUTDOWNDLOG : String
deriving DecidableEq

/-- Python `s.split(c)` for a one-character separator (the script
splits on `"&"` and `"="`). -/
def splitCharAux (sep : Char) : List Char → List Char → List String
  | [], acc => [String.mk acc.reverse]
  | x :: rest, acc =>
    if x = sep then String.mk acc.reverse :: splitCharAux sep rest []
    else splitCharAux sep rest (x :: acc)

def splitChar (sep : Char) (s : String) : List String := splitCharAux sep s.data []

/-- Python `int(s)` on a canonical integer literal (an optional sign
followed by digits; the ids the script formats with `str(...)` are
always of this form).  `none` is a ValueError. -/
def digitsToNatAux : List Char → Nat → Option Nat
  | [], acc => some acc
  | c :: rest, acc =>
    if '0' ≤ c ∧ c ≤ '9' then digitsToNatAux rest (acc * 10 + (c.toNat - 48)) else none

def pyInt? (s : String) : Option Int :=
  match s.data with
  | [] => none
  | '-' :: rest =>
    match rest with
    | [] => none
    | _ => (digitsToNatAux rest 0).map (fun n => -(n : Int))
  | '+' :: rest =>
    match rest with
    | [] => none
    | _ => (digitsToNatAux rest 0).map (fun n => (n : Int))
  | l => (digitsToNatAux l 0).map (fun n => (n : Int))

/-- One piece of `sys.argv[1].split("&")`: `arg.split("=")` must give
exactly a key and a value, else `dict(...)` raises ValueError. -/
def splitKV (s : String) : Option (String × String) :=
  match splitChar '=' s with
  | [k, v] => some (k, v)
  | _ => none

/-- `dict(arg.split("=") for arg in sys.argv[1].split("&"))`, with the
whole dict collapsing to `{}` when `sys.argv[1]` is missing or any
piece is malformed (the `except` branch). -/
def paramsOf (argv : List String) : List (String × String) :=
  match argv.get? 1 with
  | none => []
  | some a =>
    let pieces := (splitChar '&' a).map splitKV
    if pieces.all Option.isSome then pieces.filterMap id else []

/-- `params.get(k, "")` on a dict built in insertion order: the last
binding of a repeated key wins. -/
def dictGet (l : List (String × String)) (k : String) : String :=
  (l.foldl (fun acc p => if p.1 == k then some p.2 else acc) none).getD ""

/-- The loop over `sys.argv` (lines 218-222): an argument that
contains `resume=` and equals `false` once every `resume=` is removed
switches RESUME to `"false"`. -/
def resumeFalseArg (arg : String) : Bool :=
  strContains arg "resume=" && (arg.replace "resume=" "" == "false")

def resumeOf (argv : List String) : String :=
  argv.foldl (fun r arg => if resumeFalseArg arg then "false" else r) "true"

def parse_argv (argv : List String) : Args :=
  let ps := paramsOf argv
  { MOVIEID := dictGet ps "movieid"
  , EPISODEID := dictGet ps "episodeid"
  , MUSICVIDEOID := dictGet ps "musicvideoid"
  , ALBUMID := dictGet ps "albumid"
  , SONGID := dictGet ps "songid"
  , RESUME := resumeOf argv
  , SHUTDOWNDLOG := dictGet ps "shutdown" }

/-- One `Player.Open` JSON-RPC call as `Main.__init__` formats it:
the item key (`movieid`, `episodeid`, `musicvideoid`, `albumid` or
`songid`), the `%d`-formatted id, and the `options.resume` value when
the format string contains one (only the movie and episode branches
do, lines 71-81; the musicvideo, album and song branches, lines
82-96, format no `options` at all). -/
structure Rpc where
  item_key : String
  item_id : Int
  resume : Option String
deriving DecidableEq

/-- What one run of `Main.__init__` (lines 63-118) does before any
polling: exactly one `Player.Open` call, or the shutdown property, or
the service path (`_init_vars`/`_init_property`/fetches/`_daemon`);
`error` is `int(...)` raising ValueError on a non-numeric id. -/
inductive InitResult where
  | playerOpen : Rpc → InitResult
  | shutdownProp : InitResult
  | service : InitResult
  | error : InitResult
deriving DecidableEq

def main_init (argv : List String) : InitResult :=
  let a := parse_argv argv
  if a.MOVIEID ≠ "" then
    match pyInt? a.MOVIEID with
    | some n => .playerOpen ⟨"movieid", n, some a.RESUME⟩
    | none => .error
  else if a.EPISODEID ≠ "" then
    match pyInt? a.EPISODEID with
    | some n => .playerOpen ⟨"episodeid", n, some a.RESUME⟩
    | none => .error
  else if a.MUSICVIDEOID ≠ "" then
    match pyInt? a.MUSICVIDEOID with
    | some n => .playerOpen ⟨"musicvideoid", n, none⟩
    | none => .error
  else if a.ALBUMID ≠ "" then
    match pyInt? a.ALBUMID with
    | some n => .playerOpen ⟨"albumid", n, none⟩
    | none => .error
  else if a.SONGID ≠ "" then
    match pyInt? a.SONGID with
    | some n => .playerOpen ⟨"songid", n, none⟩
    | none => .error
  else if a.SHUTDOWNDLOG ≠ "" then .shutdownProp
  else .service

/-! ## The query each movie fetch issues (`_fetch_movies`, lines 308-329) -/

structure VideoFilter where
  field : String
  operator : String
  value : String
deriving DecidableEq

/-- The `"sort"` object: `order` is present only when the format
string writes one. -/
structure MovieSort where
  order : Option String
  method : String
deriving DecidableEq

structure MovieQuery where
  sort : MovieSort
  filter : Option VideoFilter
deriving DecidableEq

/-- The sort/filter part of the `VideoLibrary.GetMovies` request
`_fetch_movies` formats, by request name and the two `*_UNPLAYED`
flags. -/
def fetch_movies_query (request : String) (RECENTITEMS_UNPLAYED RANDOMITEMS_UNPLAYED : Bool) :
    MovieQuery :=
  if request == "RecommendedMovie" then
    { sort := ⟨some "descending", "lastplayed"⟩, filter := some ⟨"inprogress", "true", ""⟩ }
  else if request == "RecentMovie" && RECENTITEMS_UNPLAYED then
    { sort := ⟨some "descending", "dateadded"⟩, filter := some ⟨"playcount", "is", "0"⟩ }
  else if request == "RecentMovie" then
    { sort := ⟨some "descending", "dateadded"⟩, filter := none }
  else if request == "RandomMovie" && RANDOMITEMS_UNPLAYED then
    { sort := ⟨none, "random"⟩, filter := some ⟨"playcount", "lessthan", "1"⟩ }
  else
    { sort := ⟨none, "random"⟩, filter := none }

/-! ## The three fetch passes (`_fetch_info_*`, lines 225-270) -/

inductive Entity where
  | movie
  | episode
  | musicvideo
  | album
  | artist
  | song
  | addon
deriving DecidableEq, Fintype

/-- `_fetch_info_recommended`: the queries it issues (request name and
entity type), in order, when the `recommended_enable` setting is
`'true'`. -/
def fetch_info_recommended_queries (recommended_enable : Bool) : List (String × Entity) :=
  if recommended_enable then
    [("RecommendedMovie", .movie), ("RecommendedEpisode", .episode),
     ("RecommendedAlbum", .album), ("RecommendedMusicVideo", .musicvideo)]
  else []

/-- `_fetch_info_randomitems`: the queries it issues when
`randomitems_enable` is `'true'`. -/
def fetch_info_randomitems_queries (randomitems_enable : Bool) : List (String × Entity) :=
  if randomitems_enable then
    [("RandomMovie", .movie), ("RandomEpisode", .episode), ("RandomMusicVideo", .musicvideo),
     ("RandomAlbum", .album), ("RandomArtist", .artist), ("RandomSong", .song),
     ("RandomAddon", .addon)]
  else []

/-- `_fetch_info_recentitems`: the queries it issues when
`recentitems_enable` is `'true'`. -/
def fetch_info_recentitems_queries (recentitems_enable : Bool) : List (String × Entity) :=
  if recentitems_enable then
    [("RecentMovie", .movie), ("RecentEpisode", .episode), ("RecentMusicVideo", .musicvideo),
     ("RecentAlbum", .album)]
  else []

/-! ## `_init_property` and the daemon timer (lines 173-202, 1005-1027)

`_init_property` stores `getSetting("randomitems_method")` (a str) and
`getSetting("randomitems_time") * 120` — a str times an int, which in
Python is string repetition, although the comment above that line
says "convert time to seconds, times 2 for 0,5 second sleep
compensation". -/

structure ServiceSettings where
  randomitems_method : String
  randomitems_time : String
deriving DecidableEq

structure InitProps where
  RANDOMITEMS_UPDATE_METHOD : PyVal
  RANDOMITEMS_TIME : PyVal
deriving DecidableEq

def init_property (s : ServiceSettings) : InitProps :=
  { RANDOMITEMS_UPDATE_METHOD := .str s.randomitems_method
  , RANDOMITEMS_TIME := pyMulInt (.str s.randomitems_time) 120 }

/-- The timer branch of one `_daemon` iteration (lines 1016-1021) when
no video is playing: `if self.RANDOMITEMS_UPDATE_METHOD == 0: count
+= 1; if count == self.RANDOMITEMS_TIME: fetch; count = 0`.  Returns
the new counter and whether `_fetch_info_randomitems` ran. -/
def daemon_timer_branch (g : InitProps) (count : Int) : Int × Bool :=
  if pyEq g.RANDOMITEMS_UPDATE_METHOD (.int 0) then
    let count2 := count + 1
    if pyEq (.int count2) g.RANDOMITEMS_TIME then (0, true) else (count2, false)
  else (count, false)

/-! ## `_update` and `onScanFinished` (lines 1066-1108, 1227-1234) -/

/-- The fetches `Main._update(vidtype)` runs, in order: the
recommended/recent block by type, then — only if
`self.RANDOMITEMS_UPDATE_METHOD == 1` — the random block. -/
def update_requests (vidtype : String) (RANDOMITEMS_UPDATE_METHOD : PyVal) : List String :=
  (if vidtype == "movie" then ["RecommendedMovie", "RecentMovie"]
   else if vidtype == "episode" then ["RecommendedEpisode", "RecentEpisode"]
   else if vidtype == "video" then
     ["RecommendedMovie", "RecommendedEpisode", "RecentMovie", "RecentEpisode",
      "RecentMusicVideo"]
   else if vidtype == "musicvideo" then ["RecommendedMusicVideo", "RecentMusicVideo"]
   else if vidtype == "music" then ["RecommendedAlbum", "RecentAlbum"]
   else [])
  ++ (if pyEq RANDOMITEMS_UPDATE_METHOD (.int 1) then
        (if vidtype == "video" then ["RandomMovie", "RandomEpisode", "RandomMusicVideo"]
         else if vidtype == "music" then
           ["RandomAlbum", "RandomArtist", "RandomSong", "RandomAddon"]
         else [])
      else [])

/-- `Widgets_Monitor.onScanFinished(library)` calls
`self.update_listitems(library)`, which is `Main._update`. -/
def onScanFinished_requests (library : String) (method : PyVal) : List String :=
  update_requests library method

/-! ## Fixed data used by the statements and witnesses -/

/-- The 37 field names a movie row always writes (lines 370-406), in
source order, before the trailing `art.items()` loop. -/
def movieFixedFields : List String :=
  ["DBID", "Title", "OriginalTitle", "Year", "Genre", "Studio", "Country", "Plot",
   "PlotOutline", "Tagline", "Runtime", "Rating", "Userrating", "mpaa", "Director", "Trailer",
   "Art(poster)", "Art(fanart)", "Art(clearlogo)", "Art(clearart)", "Art(landscape)",
   "Art(banner)", "Art(discart)", "Art(icon)", "Resume", "PercentPlayed",
   "PercentPlayedAsInt", "Watched", "File", "Path", "Play", "VideoCodec", "VideoResolution",
   "VideoAspect", "HDRType", "AudioCodec", "AudioChannels"]

/-- The art keys whose `Art(...)` slots are already among the fixed
movie fields. -/
def movieArtKeys : List String :=
  ["poster", "fanart", "clearlogo", "clearart", "landscape", "banner", "discart", "icon"]

/-- A concrete context for evaluating the theorems. -/
def ctx0 : Ctx := { addonid := "service.skin.widgets", PLOT_ENABLE := true, localized_32014 := "hidden" }

/-- An empty home window. -/
def w0 : Window := fun _ => none

def vs1 : VideoStream := { width := 1920, height := 1080, aspect := 1.78, codec := "h264", hdrtype := "SDR" }

def as1 : AudioStream := { codec := "aac", channels := 6 }

def sd1 : StreamDetails := { video := [vs1], audio := [as1] }

/-- A concrete movie row. -/
def m0 : Movie :=
  { movieid := 7, title := "T", originaltitle := "OT", playcount := 1, year := 1999,
    genre := ["Drama"], studio := ["S"], country := ["US"], tagline := "tag", plot := "plot",
    runtime := 5400, file := "/movies/t/t.mkv", plotoutline := "o", lastplayed := "",
    trailer := "", rating := 7.9, userrating := 8, resume := { position := 0, total := 0 },
    art := [("poster", "p"), ("fanart", "f")], streamdetails := sd1, mpaa := "R",
    director := ["D"] }

/-! ## Helper lemmas -/

lemma clear_fold_apply (request : String) (l : List Nat) (w : Window) (q : String) :
    (l.foldl (fun w c => clearProp w (request ++ "." ++ toString (c + 1) ++ ".Title")) w) q
      = if ∃ c ∈ l, q = request ++ "." ++ toString (c + 1) ++ ".Title" then none else w q := by
  induction l generalizing w with
  | nil => simp
  | cons c l ih =>
    simp only [List.foldl_cons]
    rw [ih]
    by_cases h2 : q = request ++ "." ++ toString (c + 1) ++ ".Title" <;>
      by_cases h1 : ∃ d ∈ l, q = request ++ "." ++ toString (d + 1) ++ ".Title" <;>
        simp [clearProp, h1, h2]

lemma resume_foldl (l : List String) (r : String) :
    l.foldl (fun r arg => if resumeFalseArg arg then "false" else r) r
      = if l.any resumeFalseArg then "false" else r := by
  induction l generalizing r with
  | nil => rfl
  | cons a l ih =>
    simp only [List.foldl_cons, List.any_cons]
    by_cases h : resumeFalseArg a = true <;> simp [h, ih]

lemma resumeOf_any (argv : List String) :
    resumeOf argv = if argv.any resumeFalseArg then "false" else "true" :=
  resume_foldl argv "true"

lemma main_init_eq_service_iff (argv : List String) :
    main_init argv = .service ↔
      ((parse_argv argv).MOVIEID = "" ∧ (parse_argv argv).EPISODEID = ""
        ∧ (parse_argv argv).MUSICVIDEOID = "" ∧ (parse_argv argv).ALBUMID = ""
        ∧ (parse_argv argv).SONGID = "" ∧ (parse_argv argv).SHUTDOWNDLOG = "") := by
  simp only [main_init]
  split_ifs with h1 h2 h3 h4 h5 h6
  · cases h : pyInt? (parse_argv argv).MOVIEID <;> simp [h, h1]
  · cases h : pyInt? (parse_argv argv).EPISODEID <;> simp [h, h2]
  · cases h : pyInt? (parse_argv argv).MUSICVIDEOID <;> simp [h, h3]
  · cases h : pyInt? (parse_argv argv).ALBUMID <;> simp [h, h4]
  · cases h : pyInt? (parse_argv argv).SONGID <;> simp [h, h5]
  · simp [h6]
  · simp only [ne_eq, not_not] at h1 h2 h3 h4 h5 h6
    simp [h1, h2, h3, h4, h5, h6]

lemma loopRows_enumFrom {α : Type} (row : Nat → α → List (String × String)) (items : List α)
    (c : Nat) : loopRows row items c = concatRows row (List.enumFrom (c + 1) items) := by
  induction items generalizing c with
  | nil => rfl
  | cons it rest ih => simp [loopRows, List.enumFrom, concatRows, ih]

lemma movie_row_fields (ctx : Ctx) (it : Movie) :
    (movie_row_entries ctx it).map Prod.fst
      = movieFixedFields ++ it.art.map (fun kv => "Art(" ++ kv.1 ++ ")") := by
  simp [movie_row_entries, movieFixedFields, List.map_map, Function.comp]

/-! ## The claims -/

/-- C3 (code bug): the daemon's timer branch is supposed to re-run the
random-items fetch when the counter reaches RANDOMITEMS_TIME, but
`getSetting` returns strings, so `RANDOMITEMS_TIME` is
`randomitems_time` repeated 120 times (string repetition, not
arithmetic) and `RANDOMITEMS_UPDATE_METHOD == 0` compares a str with
an int: the branch never increments the counter, never reaches
equality and never re-runs the fetch. -/
theorem daemon_timer_never_fires (s : ServiceSettings) (count c : Int) :
    daemon_timer_branch (init_property s) count = (count, false)
    ∧ (init_property s).RANDOMITEMS_TIME
        = .str (String.join (List.replicate 120 s.randomitems_time))
    ∧ pyEq (.int c) ((init_property s).RANDOMITEMS_TIME) = false :=
  ⟨rfl, rfl, rfl⟩

/-- C6 (code bug): on `onScanFinished('video')` the two recommended
and three recent video fetches re-run, and on `'music'` the two album
fetches re-run; but the random fetches never do, whatever the
`randomitems_method` setting string is, because the code compares that
string with the int `1`. -/
theorem onScanFinished_requests_spec (m : String) :
    onScanFinished_requests "video" (.str m)
      = ["RecommendedMovie", "RecommendedEpisode", "RecentMovie", "RecentEpisode",
         "RecentMusicVideo"]
    ∧ onScanFinished_requests "music" (.str m) = ["RecommendedAlbum", "RecentAlbum"]
    ∧ pyEq (.str m) (.int 1) = false :=
  ⟨rfl, rfl, rfl⟩

/-- C4 (confirmed): the three movie requests carry three different
sort/filter policies: Recommended filters on inprogress=true and sorts
by lastplayed descending; Recent sorts by dateadded descending, adding
a playcount-is-0 filter exactly when the recent-unplayed flag is set;
Random sorts randomly, adding a playcount-lessthan-1 filter exactly
when the random-unplayed flag is set. -/
theorem fetch_movies_query_policies (ru rd : Bool) :
    fetch_movies_query "RecommendedMovie" ru rd
      = { sort := ⟨some "descending", "lastplayed"⟩, filter := some ⟨"inprogress", "true", ""⟩ }
    ∧ fetch_movies_query "RecentMovie" true rd
      = { sort := ⟨some "descending", "dateadded"⟩, filter := some ⟨"playcount", "is", "0"⟩ }
    ∧ fetch_movies_query "RecentMovie" false rd
      = { sort := ⟨some "descending", "dateadded"⟩, filter := none }
    ∧ fetch_movies_query "RandomMovie" ru true
      = { sort := ⟨none, "random"⟩, filter := some ⟨"playcount", "lessthan", "1"⟩ }
    ∧ fetch_movies_query "RandomMovie" ru false
      = { sort := ⟨none, "random"⟩, filter := none } :=
  ⟨rfl, rfl, rfl, rfl, rfl⟩

/-- C5 (counterexample): the recommended pass does not issue one query
per entity type of the seven-type set: it issues only four queries,
and artists, songs and add-ons are missing from it (add-ons are also
missing from the recent pass). -/
theorem recommended_pass_misses_entities :
    (fetch_info_recommended_queries true).length = 4
    ∧ Entity.artist ∉ (fetch_info_recommended_queries true).map Prod.snd
    ∧ Entity.song ∉ (fetch_info_recommended_queries true).map Prod.snd
    ∧ Entity.addon ∉ (fetch_info_recommended_queries true).map Prod.snd
    ∧ Entity.addon ∉ (fetch_info_recentitems_queries true).map Prod.snd := by
  decide

/-- C5 (corrected): only the random pass covers all seven entity
types; the recommended and recent passes each query movies, episodes,
music videos and albums only, so the entity set common to the three
categories is movie/episode/musicvideo/album. -/
theorem fetch_passes_entity_types :
    fetch_info_recommended_queries true
      = [("RecommendedMovie", .movie), ("RecommendedEpisode", .episode),
         ("RecommendedAlbum", .album), ("RecommendedMusicVideo", .musicvideo)]
    ∧ fetch_info_randomitems_queries true
      = [("RandomMovie", .movie), ("RandomEpisode", .episode), ("RandomMusicVideo", .musicvideo),
         ("RandomAlbum", .album), ("RandomArtist", .artist), ("RandomSong", .song),
         ("RandomAddon", .addon)]
    ∧ fetch_info_recentitems_queries true
      = [("RecentMovie", .movie), ("RecentEpisode", .episode), ("RecentMusicVideo", .musicvideo),
         ("RecentAlbum", .album)]
    ∧ (∀ e : Entity,
        (e ∈ (fetch_info_recommended_queries true).map Prod.snd
          ∧ e ∈ (fetch_info_randomitems_queries true).map Prod.snd
          ∧ e ∈ (fetch_info_recentitems_queries true).map Prod.snd)
        ↔ e ∈ [Entity.movie, Entity.episode, Entity.musicvideo, Entity.album]) := by
  refine ⟨rfl, rfl, rfl, by decide⟩

/-- C9 (confirmed): `_clear_properties` removes exactly the twenty
`‹request›.n.Title` properties for n = 1..LIMIT and leaves every other
property (any other field, any other index, any other request)
untouched. -/
theorem clear_properties_only_titles (request : String) (w : Window) (n : Nat) (q : String) :
    (1 ≤ n → n ≤ LIMIT →
      clear_properties request w (request ++ "." ++ toString n ++ ".Title") = none)
    ∧ ((∀ m : Nat, 1 ≤ m → m ≤ LIMIT → q ≠ request ++ "." ++ toString m ++ ".Title") →
      clear_properties request w q = w q) := by
  constructor
  · intro h1 h2
    rw [clear_properties, clear_fold_apply, if_pos]
    refine ⟨n - 1, ?_, ?_⟩
    · simp only [List.mem_range, LIMIT] at *
      omega
    · have hn : n - 1 + 1 = n := by omega
      rw [hn]
  · intro h
    rw [clear_properties, clear_fold_apply, if_neg]
    rintro ⟨c, hc, rfl⟩
    simp only [List.mem_range, LIMIT] at hc
    exact h (c + 1) (by omega) (by simp only [LIMIT]; omega) rfl

/-- C9 witness: index 5's Title is cleared; the Plot property at the
same index survives. -/
theorem clear_properties_only_titles_witness :
    clear_properties "RecentMovie" (fun _ => some "x") "RecentMovie.5.Title" = none
    ∧ clear_properties "RecentMovie" (fun _ => some "x") "RecentMovie.5.Plot" = some "x" := by
  constructor
  · exact (clear_properties_only_titles "RecentMovie" (fun _ => some "x") 5
      "RecentMovie.5.Title").1 (by decide) (by decide)
  · refine (clear_properties_only_titles "RecentMovie" (fun _ => some "x") 5
      "RecentMovie.5.Plot").2 ?_
    intro m h1 h2
    have h2a : m ≤ 20 := h2
    interval_cases m <;> decide

/-- C1 (counterexample): invoked with `musicvideoid=3`, the launcher
issues a `Player.Open` whose format string carries no `options` and
hence no resume flag at all — not a call with resume enabled. -/
theorem main_init_musicvideo_no_resume :
    main_init ["service.skin.widgets", "musicvideoid=3"]
      = .playerOpen ⟨"musicvideoid", 3, none⟩ := by
  decide

/-- C1 (corrected): with an id argument, `Main.__init__` issues
exactly one `Player.Open` for that item and never starts the polling
service; RESUME defaults to "true" and turns "false" exactly when an
argv element contains `resume=` and reads `false` once `resume=` is
deleted — but the resume option is formatted into the call only for
movieid and episodeid, while musicvideoid, albumid and songid open
with no resume option. -/
theorem main_init_launcher (argv : List String) (n : Int) :
    ((parse_argv argv).RESUME = if argv.any resumeFalseArg then "false" else "true")
    ∧ ((parse_argv argv).MOVIEID ≠ "" → pyInt? (parse_argv argv).MOVIEID = some n →
        main_init argv = .playerOpen ⟨"movieid", n, some (parse_argv argv).RESUME⟩)
    ∧ ((parse_argv argv).MOVIEID = "" → (parse_argv argv).EPISODEID ≠ "" →
        pyInt? (parse_argv argv).EPISODEID = some n →
        main_init argv = .playerOpen ⟨"episodeid", n, some (parse_argv argv).RESUME⟩)
    ∧ ((parse_argv argv).MOVIEID = "" → (parse_argv argv).EPISODEID = "" →
        (parse_argv argv).MUSICVIDEOID ≠ "" →
        pyInt? (parse_argv argv).MUSICVIDEOID = some n →
        main_init argv = .playerOpen ⟨"musicvideoid", n, none⟩)
    ∧ ((parse_argv argv).MOVIEID = "" → (parse_argv argv).EPISODEID = "" →
        (parse_argv argv).MUSICVIDEOID = "" → (parse_argv argv).ALBUMID ≠ "" →
        pyInt? (parse_argv argv).ALBUMID = some n →
        main_init argv = .playerOpen ⟨"albumid", n, none⟩)
    ∧ ((parse_argv argv).MOVIEID = "" → (parse_argv argv).EPISODEID = "" →
        (parse_argv argv).MUSICVIDEOID = "" → (parse_argv argv).ALBUMID = "" →
        (parse_argv argv).SONGID ≠ "" → pyInt? (parse_argv argv).SONGID = some n →
        main_init argv = .playerOpen ⟨"songid", n, none⟩)
    ∧ (((parse_argv argv).MOVIEID ≠ "" ∨ (parse_argv argv).EPISODEID ≠ ""
        ∨ (parse_argv argv).MUSICVIDEOID ≠ "" ∨ (parse_argv argv).ALBUMID ≠ ""
        ∨ (parse_argv argv).SONGID ≠ "") → main_init argv ≠ .service) := by
  refine ⟨resumeOf_any argv, ?_, ?_, ?_, ?_, ?_, ?_⟩
  · intro h1 h2
    simp [main_init, h1, h2]
  · intro h0 h1 h2
    simp [main_init, h0, h1, h2]
  · intro h0 h0a h1 h2
    simp [main_init, h0, h0a, h1, h2]
  · intro h0 h0a h0b h1 h2
    simp [main_init, h0, h0a, h0b, h1, h2]
  · intro h0 h0a h0b h0c h1 h2
    simp [main_init, h0, h0a, h0b, h0c, h1, h2]
  · intro h hs
    rw [main_init_eq_service_iff] at hs
    obtain ⟨e1, e2, e3, e4, e5, _⟩ := hs
    rcases h with h | h | h | h | h
    · exact h e1
    · exact h e2
    · exact h e3
    · exact h e4
    · exact h e5

/-- C1 witness: `movieid=5` opens the movie with resume "true". -/
theorem main_init_launcher_witness :
    main_init ["service.skin.widgets", "movieid=5"]
      = .playerOpen ⟨"movieid", 5, some "true"⟩ := by
  have h := (main_init_launcher ["service.skin.widgets", "movieid=5"] 5).2.1
    (by decide) (by decide)
  have hr : (parse_argv ["service.skin.widgets", "movieid=5"]).RESUME = "true" := by decide
  rw [h, hr]

/-- C2 (confirmed): every fetch of movies, episodes, music videos,
albums, artists and songs leaves the whole window untouched — no
property cleared, none written — whenever the parsed response lacks
a `result` key or lacks the per-entity list under `result`. -/
theorem fetch_skip_if_empty (abort : Bool) (ctx : Ctx) (sf request : String) (w : Window)
    (q : String) :
    (∀ resp : RpcResp Movie, hasEntities resp = false →
      fetch_movies abort ctx request resp w q = w q)
    ∧ (∀ resp : RpcResp Episode, hasEntities resp = false →
      fetch_tvshows abort ctx sf request resp w q = w q)
    ∧ (∀ resp : RpcResp MusicVideo, hasEntities resp = false →
      fetch_musicvideo abort ctx request resp w q = w q)
    ∧ (∀ resp : RpcResp Album, hasEntities resp = false →
      fetch_albums abort ctx request resp w q = w q)
    ∧ (∀ resp : RpcResp Artist, hasEntities resp = false →
      fetch_artist abort request resp w q = w q)
    ∧ (∀ resp : RpcResp Song, hasEntities resp = false →
      fetch_song abort ctx request resp w q = w q) := by
  refine ⟨?_, ?_, ?_, ?_, ?_, ?_⟩ <;>
    (rintro ⟨(_ | ⟨(_ | items)⟩)⟩ h <;>
      first
        | (cases abort <;> rfl)
        | simp [hasEntities] at h)

/-- C2 witness: a response without `result`, and one whose `result`
lacks the entity list, change nothing on an empty window. -/
theorem fetch_skip_if_empty_witness :
    fetch_movies false ctx0 "RecentMovie" ⟨none⟩ w0 "RecentMovie.1.Title"
      = w0 "RecentMovie.1.Title"
    ∧ fetch_tvshows false ctx0 "false" "RecentEpisode" ⟨some ⟨none⟩⟩ w0 "k" = w0 "k"
    ∧ fetch_musicvideo false ctx0 "RandomMusicVideo" ⟨none⟩ w0 "k" = w0 "k"
    ∧ fetch_albums false ctx0 "RecentAlbum" ⟨some ⟨none⟩⟩ w0 "k" = w0 "k"
    ∧ fetch_artist false "RandomArtist" ⟨none⟩ w0 "k" = w0 "k"
    ∧ fetch_song false ctx0 "RandomSong" ⟨some ⟨none⟩⟩ w0 "k" = w0 "k" :=
  ⟨(fetch_skip_if_empty false ctx0 "false" "RecentMovie" w0 "RecentMovie.1.Title").1 ⟨none⟩ rfl,
   (fetch_skip_if_empty false ctx0 "false" "RecentEpisode" w0 "k").2.1 ⟨some ⟨none⟩⟩ rfl,
   (fetch_skip_if_empty false ctx0 "false" "RandomMusicVideo" w0 "k").2.2.1 ⟨none⟩ rfl,
   (fetch_skip_if_empty false ctx0 "false" "RecentAlbum" w0 "k").2.2.2.1 ⟨some ⟨none⟩⟩ rfl,
   (fetch_skip_if_empty false ctx0 "false" "RandomArtist" w0 "k").2.2.2.2.1 ⟨none⟩ rfl,
   (fetch_skip_if_empty false ctx0 "false" "RandomSong" w0 "k").2.2.2.2.2 ⟨some ⟨none⟩⟩ rfl⟩

/-- C8 (confirmed): on any input with video and audio stream lists,
`media_streamdetails` returns a dict with exactly the six keys
videoresolution/videocodec/videoaspect/hdrtype/audiocodec/audiochannels;
with a video stream present, videoaspect is picked from the six fixed
strings by the ascending threshold chain and videoresolution is one of
3d/480/576/540/720/1080/""; with no video stream and no filename hint,
videoresolution defaults to "1080". -/
theorem media_streamdetails_spec (f : String) (sd : StreamDetails) (v0 : VideoStream) (q : ℚ) :
    ((media_streamdetails f sd).map Prod.fst).Perm
      ["videoresolution", "videocodec", "videoaspect", "hdrtype", "audiocodec", "audiochannels"]
    ∧ ((media_streamdetails f sd).map Prod.fst).Nodup
    ∧ (∀ rest, sd.video = v0 :: rest →
        (media_streamdetails f sd).lookup "videoaspect"
          = some (.str (aspectBucket v0.aspect)))
    ∧ aspectBucket q ∈ ["1.33", "1.66", "1.78", "1.85", "2.20", "2.35"]
    ∧ (q < 1.4859 → aspectBucket q = "1.33")
    ∧ (1.4859 ≤ q → q < 1.7190 → aspectBucket q = "1.66")
    ∧ (1.7190 ≤ q → q < 1.8147 → aspectBucket q = "1.78")
    ∧ (1.8147 ≤ q → q < 2.0174 → aspectBucket q = "1.85")
    ∧ (2.0174 ≤ q → q < 2.2738 → aspectBucket q = "2.20")
    ∧ (2.2738 ≤ q → aspectBucket q = "2.35")
    ∧ media_videoresolution f sd.video ∈ ["3d", "480", "576", "540", "720", "1080", ""]
    ∧ ((media_streamdetails f sd).lookup "videoresolution"
        = some (.str (media_videoresolution f sd.video)))
    ∧ (sd.video = [] → strContains f "3d" = false →
        ¬((strContains f "dvd" ∧ ¬strContains f "hddvd") ∨ strEndsWith f ".vob") →
        strContains f "bluray" = false → media_videoresolution f sd.video = "1080") := by
  obtain ⟨v, a⟩ := sd
  refine ⟨?_, ?_, ?_, ?_, ?_, ?_, ?_, ?_, ?_, ?_, ?_, ?_, ?_⟩
  · cases v <;> cases a <;> simp [media_streamdetails, mediaAudioPart] <;> decide
  · cases v <;> cases a <;> simp [media_streamdetails, mediaAudioPart]
  · intro rest hv
    simp only at hv
    subst hv
    rfl
  · rw [aspectBucket]
    split_ifs <;> decide
  · intro h1
    rw [aspectBucket, if_pos h1]
  · intro h1 h2
    rw [aspectBucket, if_neg (by linarith), if_pos h2]
  · intro h1 h2
    have t1 : (1.4859 : ℚ) < 1.7190 := by norm_num
    rw [aspectBucket, if_neg (by linarith), if_neg (by linarith), if_pos h2]
  · intro h1 h2
    have t1 : (1.4859 : ℚ) < 1.8147 := by norm_num
    have t2 : (1.7190 : ℚ) < 1.8147 := by norm_num
    rw [aspectBucket, if_neg (by linarith), if_neg (by linarith), if_neg (by linarith),
      if_pos h2]
  · intro h1 h2
    have t1 : (1.4859 : ℚ) < 2.0174 := by norm_num
    have t2 : (1.7190 : ℚ) < 2.0174 := by norm_num
    have t3 : (1.8147 : ℚ) < 2.0174 := by norm_num
    rw [aspectBucket, if_neg (by linarith), if_neg (by linarith), if_neg (by linarith),
      if_neg (by linarith), if_pos h2]
  · intro h1
    have t1 : (1.4859 : ℚ) < 2.2738 := by norm_num
    have t2 : (1.7190 : ℚ) < 2.2738 := by norm_num
    have t3 : (1.8147 : ℚ) < 2.2738 := by norm_num
    have t4 : (2.0174 : ℚ) < 2.2738 := by norm_num
    rw [aspectBucket, if_neg (by linarith), if_neg (by linarith), if_neg (by linarith),
      if_neg (by linarith), if_neg (by linarith)]
  · cases v <;> simp only [media_videoresolution] <;> split_ifs <;> decide
  · cases v <;> rfl
  · intro hv h3 hdvd hblu
    simp only at hv
    subst hv
    simp only [media_videoresolution]
    split_ifs with c1 c2
    · simp [h3] at c1
    · rfl
    · rfl

/-- C8 witness: a 1920x1080 stream at aspect 1.78 buckets to "1.78";
an aspect of 1.9 buckets to "1.85"; with no video stream and a plain
filename, videoresolution is "1080". -/
theorem media_streamdetails_spec_witness :
    (media_streamdetails "movie.mkv" sd1).lookup "videoaspect" = some (.str "1.78")
    ∧ aspectBucket 1.9 = "1.85"
    ∧ media_videoresolution "movie.avi" [] = "1080" := by
  refine ⟨?_, ?_, ?_⟩
  · have hb := media_streamdetails_spec "movie.mkv" sd1 vs1 vs1.aspect
    rw [hb.2.2.1 [] rfl, hb.2.2.2.2.2.2.1 (by norm_num [vs1]) (by norm_num [vs1])]
  · exact (media_streamdetails_spec "movie.mkv" sd1 vs1 1.9).2.2.2.2.2.2.2.1
      (by norm_num) (by norm_num)
  · exact (media_streamdetails_spec "movie.avi" ⟨[], []⟩ vs1 0).2.2.2.2.2.2.2.2.2.2.2.2
      rfl (by decide) (by decide) (by decide)

/-- C7 (confirmed): the movie fetch flattens result rows into
properties keyed `‹request›.‹index›.‹Field›`, with the index starting
at 1 and increasing by exactly 1 per result row in result order; a
movie row writes 37 fixed fields plus one `Art(k)` per art key, so
when the row's art keys are among the standard eight the row touches
exactly 37 distinct field names (and always at least 37 ≥ 20). -/
theorem fetch_movies_flatten (ctx : Ctx) (request : String) (items : List Movie) (n : Nat)
    (it : Movie) :
    loopRows (fun c i => movie_row_props ctx request c i) items 0
      = concatRows (fun c i => movie_row_props ctx request c i) (List.enumFrom 1 items)
    ∧ (∀ p ∈ movie_row_props ctx request n it,
        ∃ fld ∈ (movie_row_entries ctx it).map Prod.fst,
          p.1 = request ++ "." ++ toString n ++ "." ++ fld)
    ∧ ((movie_row_entries ctx it).map Prod.fst).length = 37 + it.art.length
    ∧ ((∀ k ∈ it.art.map Prod.fst, k ∈ movieArtKeys) →
        ((movie_row_entries ctx it).map Prod.fst).toFinset.card = 37)
    ∧ 37 ≤ ((movie_row_entries ctx it).map Prod.fst).toFinset.card := by
  refine ⟨loopRows_enumFrom _ items 0, ?_, ?_, ?_, ?_⟩
  · rintro p hp
    simp only [movie_row_props, prefixRow, List.mem_map] at hp
    obtain ⟨e, he, rfl⟩ := hp
    exact ⟨e.1, List.mem_map_of_mem _ he, rfl⟩
  · rw [movie_row_fields]
    simp [movieFixedFields]
    omega
  · intro hart
    rw [movie_row_fields, List.toFinset_append]
    have hsub : (it.art.map (fun kv => "Art(" ++ kv.1 ++ ")")).toFinset
        ⊆ movieFixedFields.toFinset := by
      intro x hx
      simp only [List.mem_toFinset, List.mem_map] at hx
      obtain ⟨kv, hkv, rfl⟩ := hx
      have hk := hart kv.1 (List.mem_map_of_mem _ hkv)
      simp only [movieArtKeys, List.mem_cons, List.mem_singleton, List.not_mem_nil,
        or_false] at hk
      simp only [List.mem_toFinset]
      rcases hk with h | h | h | h | h | h | h | h <;> rw [h] <;> decide
    rw [Finset.union_eq_left.mpr hsub]
    decide
  · have h1 : movieFixedFields.toFinset.card = 37 := by decide
    calc (37 : ℕ) = movieFixedFields.toFinset.card := h1.symm
      _ ≤ ((movie_row_entries ctx it).map Prod.fst).toFinset.card := by
          apply Finset.card_le_card
          rw [movie_row_fields, List.toFinset_append]
          exact Finset.subset_union_left

/-- C7 witness: the concrete movie `m0`, whose art keys are poster and
fanart, writes exactly 37 distinct field names, and a one-row result
list is flattened at index 1. -/
theorem fetch_movies_flatten_witness :
    ((movie_row_entries ctx0 m0).map Prod.fst).toFinset.card = 37
    ∧ loopRows (fun c i => movie_row_props ctx0 "RandomMovie" c i) [m0] 0
      = concatRows (fun c i => movie_row_props ctx0 "RandomMovie" c i)
          (List.enumFrom 1 [m0]) :=
  ⟨(fetch_movies_flatten ctx0 "RandomMovie" [m0] 1 m0).2.2.2.1 (by decide),
   (fetch_movies_flatten ctx0 "RandomMovie" [m0] 1 m0).1⟩
